import Mathlib

set_option linter.unusedVariables false

/-!
Shallow embedding of src/proto_udp.c (the UDP protocol adapter layer:
address resolvers, listener bind orchestration, add-listener, pause)
and proofs of the specification claims about it.

Conventions of the embedding:
* C functions returning 0 on success / -1 on failure and writing an
  address through a pointer are modelled as functions returning
  `Option SockAddr` (`some a` = success with stored address `a`,
  `none` = failure).
* The caller-supplied `char *errmsg, int errlen` buffer is modelled as a
  `String` holding the buffer's contents up to the first NUL, threaded
  in and out; `errlen` is the capacity.  `snprintf` truncates its output
  to `errlen - 1` characters and writes nothing when the capacity is 0.
* Bitmask error codes are `Nat` with the ERR_* constants of the source
  (errors.h) and `|||` / `&&&` for the C `|` / `&`.
-/

/-- Address families.  `AF_INET`/`AF_INET6` are native socket families;
`AF_CUST_UDP4`/`AF_CUST_UDP6` are the logical tags of the two UDP
transport variants (distinct from every native family). -/
inductive AddrFamily where
  | AF_INET
  | AF_INET6
  | AF_CUST_UDP4
  | AF_CUST_UDP6
  deriving DecidableEq

open AddrFamily

/-- A socket address: the `sa_family` field, a textual rendering of the
network address (what `addr_to_str` would print), and the 16-bit port
field as stored (network byte order when set through `htons`). -/
structure SockAddr where
  family : AddrFamily
  str : String
  port : Nat
  deriving DecidableEq

/-- Modelled from the spec: the state a bound socket exposes to the
native address queries (`sock_get_src`, `sock_get_dst`,
`sock_inet_get_dst` live outside this source file).  `srcOk`/`dstOk`
tell whether the corresponding native query succeeds; `boundAddr` is the
locally-bound address; `translated`/`origAddr` say whether the traffic
was transparently redirected and what the original pre-NAT destination
was. -/
structure SockState where
  srcOk : Bool
  srcAddr : SockAddr
  dstOk : Bool
  boundAddr : SockAddr
  translated : Bool
  origAddr : SockAddr
  deriving DecidableEq

/-- Modelled from the spec: the generic native source-address query
(`sock_get_src` in src/sock.c, outside this source file).  Returns the
socket's source address on success. -/
def sock_get_src (s : SockState) (dir : Int) : Option SockAddr :=
  if s.srcOk then some s.srcAddr else none

/-- Modelled from the spec: the plain native destination-address query
(`sock_get_dst` in src/sock.c, outside this source file).  For the
listener direction it returns the locally-bound address; it performs no
transparent-redirection recovery. -/
def sock_get_dst (s : SockState) (dir : Int) : Option SockAddr :=
  if s.dstOk then some s.boundAddr else none

/-- Modelled from the spec: the transparent-recovery destination query
(`sock_inet_get_dst` in src/sock_inet.c, outside this source file).
For the listener direction (dir = 0), when the destination was
translated, it recovers the original pre-NAT destination address;
otherwise it returns the locally-bound address. -/
def sock_inet_get_dst (s : SockState) (dir : Int) : Option SockAddr :=
  if s.dstOk then
    some (if dir = 0 ∧ s.translated then s.origAddr else s.boundAddr)
  else none

/-- `udp_get_src` (src/proto_udp.c:106-115): delegates to `sock_get_src`
and on success overwrites `sa_family` with `AF_CUST_UDP4`. -/
def udp_get_src (s : SockState) (dir : Int) : Option SockAddr :=
  match sock_get_src s dir with
  | none => none
  | some sa => some { sa with family := AF_CUST_UDP4 }

/-- `udp6_get_src` (src/proto_udp.c:123-132): delegates to
`sock_get_src` and on success overwrites `sa_family` with
`AF_CUST_UDP6`. -/
def udp6_get_src (s : SockState) (dir : Int) : Option SockAddr :=
  match sock_get_src s dir with
  | none => none
  | some sa => some { sa with family := AF_CUST_UDP6 }

/-- `udp_get_dst` (src/proto_udp.c:141-150): delegates to
`sock_inet_get_dst` and on success overwrites `sa_family` with
`AF_CUST_UDP4`. -/
def udp_get_dst (s : SockState) (dir : Int) : Option SockAddr :=
  match sock_inet_get_dst s dir with
  | none => none
  | some sa => some { sa with family := AF_CUST_UDP4 }

/-- `udp6_get_dst` (src/proto_udp.c:159-168): delegates to the plain
`sock_get_dst` (not `sock_inet_get_dst`) and on success overwrites
`sa_family` with `AF_CUST_UDP6`. -/
def udp6_get_dst (s : SockState) (dir : Int) : Option SockAddr :=
  match sock_get_dst s dir with
  | none => none
  | some sa => some { sa with family := AF_CUST_UDP6 }

/-- C1: for every socket and direction, whenever the native query
succeeds (models a 0 return), each of the four resolver operations
returns an address whose family field is the transport's logical tag:
`AF_CUST_UDP4` for the v4 variants, `AF_CUST_UDP6` for the v6 variants,
regardless of the native family the underlying query stored. -/
theorem udp_resolvers_retag_family (s : SockState) (dir : Int) (a : SockAddr) :
    (udp_get_src s dir = some a → a.family = AF_CUST_UDP4) ∧
    (udp6_get_src s dir = some a → a.family = AF_CUST_UDP6) ∧
    (udp_get_dst s dir = some a → a.family = AF_CUST_UDP4) ∧
    (udp6_get_dst s dir = some a → a.family = AF_CUST_UDP6) := by
  refine ⟨?_, ?_, ?_, ?_⟩ <;>
    · intro h
      simp only [udp_get_src, udp6_get_src, udp_get_dst, udp6_get_dst] at h
      split at h
      · exact absurd h (by simp)
      · cases h
        rfl

/-- A socket state used to instantiate the resolver theorems: the native
queries succeed, the traffic was transparently redirected, and the
native addresses carry native families. -/
def wSock : SockState :=
  { srcOk := true
    srcAddr := { family := AF_INET, str := "192.0.2.7", port := 40000 }
    dstOk := true
    boundAddr := { family := AF_INET, str := "10.0.0.9", port := 53 }
    translated := true
    origAddr := { family := AF_INET, str := "203.0.113.5", port := 53 } }

theorem udp_resolvers_retag_family_witness :
    udp_get_src wSock 0 =
      some { family := AF_CUST_UDP4, str := "192.0.2.7", port := 40000 } ∧
    ({ family := AF_CUST_UDP4, str := "192.0.2.7", port := 40000 } : SockAddr).family
      = AF_CUST_UDP4 :=
  ⟨by decide,
   (udp_resolvers_retag_family wSock 0
      { family := AF_CUST_UDP4, str := "192.0.2.7", port := 40000 }).1 (by decide)⟩

/-- A listener-direction socket whose destination was transparently
redirected: the locally-bound address differs from the original pre-NAT
destination. -/
def natSock : SockState :=
  { srcOk := true
    srcAddr := { family := AF_INET6, str := "2001:db8::c", port := 40000 }
    dstOk := true
    boundAddr := { family := AF_INET6, str := "fe80::1", port := 5300 }
    translated := true
    origAddr := { family := AF_INET6, str := "2001:db8::53", port := 53 } }

/-- C2 (code bug): at a listener-direction (dir = 0) socket whose
destination was translated, `udp6_get_dst` returns the retagged
locally-bound address, while the transparent-recovery query
`sock_inet_get_dst` (the one `udp_get_dst` uses, and the one the claim
and the function's own comment promise) would return the original
pre-NAT destination, which differs. -/
theorem udp6_get_dst_no_transparent_recovery :
    udp6_get_dst natSock 0 =
      some { family := AF_CUST_UDP6, str := "fe80::1", port := 5300 } ∧
    udp_get_dst natSock 0 =
      some { family := AF_CUST_UDP4, str := "2001:db8::53", port := 53 } ∧
    sock_inet_get_dst natSock 0 =
      some { family := AF_INET6, str := "2001:db8::53", port := 53 } ∧
    natSock.boundAddr ≠ natSock.origAddr := by
  decide

/-! ## Listener and bind machinery -/

/-- The ERR_* bitmask constants of errors.h. -/
def ERR_NONE : Nat := 0x00
def ERR_RETRYABLE : Nat := 0x01
def ERR_FATAL : Nat := 0x02
def ERR_ABORT : Nat := 0x04
def ERR_WARN : Nat := 0x08
def ERR_ALERT : Nat := 0x10

/-- 16-bit byte swap: host-to-network byte order for a port.  The C
`htons` takes the argument modulo 2^16 and swaps its two bytes. -/
def htons (p : Nat) : Nat :=
  (p % 256) * 256 + (p % 65536) / 256

/-- Network-to-host byte order: the inverse byte swap (same function on
16 bits). -/
def ntohs (p : Nat) : Nat := htons p

/-- Listener states (listener-t.h). -/
inductive LiState where
  | LI_NEW
  | LI_INIT
  | LI_ASSIGNED
  | LI_PAUSED
  | LI_LISTEN
  | LI_READY
  | LI_FULL
  | LI_LIMITED
  deriving DecidableEq

open LiState

/-- Proxy (frontend) operating modes (proxy-t.h). -/
inductive PrMode where
  | PR_MODE_TCP
  | PR_MODE_HTTP
  | PR_MODE_CLI
  | PR_MODE_SYSLOG
  deriving DecidableEq

open PrMode

/-- Identifier of the two protocol descriptors of this file, used for
the listener's `rx.proto` back-reference. -/
inductive ProtoId where
  | udp4
  | udp6
  deriving DecidableEq

/-- A listener.  `state` is `listener->state`; `mode` is
`listener->bind_conf->frontend->mode`; `rx_addr` is `listener->rx.addr`
(the configured bind address, whose port field is stored in network
byte order); `proto` is the `rx.proto` back-reference; `id` stands for
the listener's identity in a descriptor's listener list.
`bindResult`/`bindMsg` model the outcome of the external receiver-bind
primitive `sock_inet_bind_receiver` for this listener (modelled from the
spec: the primitive returns ERR_* flags and, on failure, a message). -/
structure Listener where
  id : Nat
  state : LiState
  mode : PrMode
  rx_addr : SockAddr
  proto : Option ProtoId
  bindResult : Nat
  bindMsg : String
  deriving DecidableEq

/-- A protocol descriptor's mutable part: its ordered listener list
(identified by listener ids) and its `nb_listeners` counter. -/
structure Protocol where
  listeners : List Nat
  nb_listeners : Nat
  deriving DecidableEq

/-- Modelled from the spec: `addr_to_str` (src/tools.c, outside this
source file) renders the network address (without the port) into a
buffer; we model it as returning the address's textual rendering. -/
def addr_to_str (a : SockAddr) : String := a.str

/-- Modelled from the spec: `get_host_port` (outside this source file)
returns the host-order port of an address whose port field is stored in
network byte order. -/
def get_host_port (a : SockAddr) : Nat := ntohs a.port

/-- `snprintf(buf, cap, ...)` writing string `s`: with capacity 0
nothing is written (the buffer keeps its contents); otherwise the
buffer receives `s` truncated to `cap - 1` characters and
NUL-terminated. -/
def snprintf_write (cap : Nat) (s : String) (buf : String) : String :=
  if cap = 0 then buf else s.take (cap - 1)

/-- Result of `udp_bind_listener`: the ERR_* value returned, the updated
listener, the updated message buffer, and a ghost flag recording whether
the external bind primitive `sock_inet_bind_receiver` was invoked. -/
structure BindRes where
  err : Nat
  li : Listener
  buf : String
  attempted : Bool
  deriving DecidableEq

/-- `udp_bind_listener` (src/proto_udp.c:183-225).  `errmsg` is the
buffer contents, `errlen` its capacity.  Mirrors the source: clear the
buffer when a capacity was given; return ERR_NONE untouched unless the
listener is in LI_ASSIGNED; reject any frontend mode other than
PR_MODE_SYSLOG with ERR_FATAL|ERR_ALERT and the fixed message rendered
with the listener's address and port appended; otherwise run the
external bind primitive, copying its message verbatim on failure, and
move the listener to LI_LISTEN on success. -/
def udp_bind_listener (listener : Listener) (errmsg : String) (errlen : Nat) :
    BindRes :=
  let errmsg := if errlen ≠ 0 then "" else errmsg
  if listener.state ≠ LI_ASSIGNED then
    { err := ERR_NONE, li := listener, buf := errmsg, attempted := false }
  else
    match listener.mode with
    | PR_MODE_SYSLOG =>
      let err := listener.bindResult
      let msg := listener.bindMsg
      if err ≠ ERR_NONE then
        { err := err, li := listener,
          buf := snprintf_write errlen msg errmsg, attempted := true }
      else
        { err := err, li := { listener with state := LI_LISTEN },
          buf := errmsg, attempted := true }
    | _ =>
      let err := ERR_FATAL ||| ERR_ALERT
      let msg := "UDP is not yet supported on this proxy mode"
      let errmsg :=
        if errlen ≠ 0 then
          snprintf_write errlen
            (msg ++ " [" ++ addr_to_str listener.rx_addr ++ ":"
              ++ toString (get_host_port listener.rx_addr) ++ "]") errmsg
        else errmsg
      { err := err, li := listener, buf := errmsg, attempted := false }

/-- The ERR_* outcome `udp_bind_listener` produces for a listener (it
does not depend on the buffer or its capacity, see
`udp_bind_listener_err_indep`). -/
def bindOutcome (l : Listener) : Nat := (udp_bind_listener l "" 0).err

/-- The updated listener `udp_bind_listener` produces (independent of
the buffer and its capacity, see `udp_bind_listener_li_indep`). -/
def bindLi (l : Listener) : Listener := (udp_bind_listener l "" 0).li

/-- Result of `udp_bind_listeners`: the accumulated ERR_* value, the
updated listener list, the final buffer, and a ghost trace of the
listeners on which `udp_bind_listener` was invoked, in call order. -/
structure BindAllRes where
  err : Nat
  ls : List Listener
  buf : String
  trace : List Listener
  deriving DecidableEq

/-- The loop of `udp_bind_listeners` (src/proto_udp.c:238-242):
`err |= udp_bind_listener(listener, errmsg, errlen); if (err &
ERR_ABORT) break;` over the remaining listeners, with `err` the
accumulator. -/
def udp_bind_loop (errlen : Nat) :
    List Listener → Nat → String → BindAllRes
  | [], err, buf => { err := err, ls := [], buf := buf, trace := [] }
  | l :: rest, err, buf =>
    let r := udp_bind_listener l buf errlen
    let err2 := err ||| r.err
    if err2 &&& ERR_ABORT ≠ 0 then
      { err := err2, ls := r.li :: rest, buf := r.buf, trace := [l] }
    else
      let rr := udp_bind_loop errlen rest err2 r.buf
      { err := rr.err, ls := r.li :: rr.ls, buf := rr.buf,
        trace := l :: rr.trace }

/-- `udp_bind_listeners` (src/proto_udp.c:233-245): iterate the
protocol's listener list in order, OR-ing the outcomes, stopping as soon
as the accumulated error carries ERR_ABORT. -/
def udp_bind_listeners (ls : List Listener) (errmsg : String) (errlen : Nat) :
    BindAllRes :=
  udp_bind_loop errlen ls ERR_NONE errmsg

/-- `udp4_add_listener` (src/proto_udp.c:251-260): no-op unless the
listener is in LI_INIT; otherwise move it to LI_ASSIGNED, set its
`rx.proto` back-reference, store `htons(port)` in the address's port
field, append it to the udp4 descriptor's listener list and bump the
counter.  Returns the updated (listener, udp4 descriptor). -/
def udp4_add_listener (listener : Listener) (proto_udp4 : Protocol)
    (port : Nat) : Listener × Protocol :=
  if listener.state ≠ LI_INIT then (listener, proto_udp4)
  else
    ({ listener with
        state := LI_ASSIGNED
        proto := some ProtoId.udp4
        rx_addr := { listener.rx_addr with port := htons port } },
     { listeners := proto_udp4.listeners ++ [listener.id]
       nb_listeners := proto_udp4.nb_listeners + 1 })

/-- `udp6_add_listener` (src/proto_udp.c:266-275): same as
`udp4_add_listener` but for the udp6 descriptor. -/
def udp6_add_listener (listener : Listener) (proto_udp6 : Protocol)
    (port : Nat) : Listener × Protocol :=
  if listener.state ≠ LI_INIT then (listener, proto_udp6)
  else
    ({ listener with
        state := LI_ASSIGNED
        proto := some ProtoId.udp6
        rx_addr := { listener.rx_addr with port := htons port } },
     { listeners := proto_udp6.listeners ++ [listener.id]
       nb_listeners := proto_udp6.nb_listeners + 1 })

/-- `udp_pause_listener` (src/proto_udp.c:280-284): pausing is not
supported on UDP; always returns -1. -/
def udp_pause_listener (l : Listener) : Int := -1

/-- OR of the outcomes of a batch of listeners on top of an accumulated
error value, in list order — the value `udp_bind_listeners` accumulates
in `err`. -/
def orOutcomes (acc : Nat) (ls : List Listener) : Nat :=
  ls.foldl (fun e l => e ||| bindOutcome l) acc

/-! ## Helper lemmas -/

theorem udp_bind_listener_err_indep (l : Listener) (buf : String)
    (errlen : Nat) :
    (udp_bind_listener l buf errlen).err = bindOutcome l := by
  simp only [bindOutcome, udp_bind_listener]
  split
  · rfl
  · split
    · split <;> rfl
    · rfl

theorem udp_bind_listener_li_indep (l : Listener) (buf : String)
    (errlen : Nat) :
    (udp_bind_listener l buf errlen).li = bindLi l := by
  simp only [bindLi, udp_bind_listener]
  split
  · rfl
  · split
    · split <;> rfl
    · rfl

/-- The ERR_ABORT bit of an OR is the OR of the ERR_ABORT bits. -/
theorem land_abort_lor (a b : Nat) :
    ((a ||| b) &&& ERR_ABORT ≠ 0) ↔
      (a &&& ERR_ABORT ≠ 0 ∨ b &&& ERR_ABORT ≠ 0) := by
  have h : ∀ x : Nat, (x &&& ERR_ABORT ≠ 0) ↔ x.testBit 2 = true := by
    intro x
    have h4 : ERR_ABORT = 2 ^ 2 := rfl
    rw [h4, Nat.and_two_pow]
    cases hx : x.testBit 2 <;> simp
  rw [h, h, h, Nat.testBit_lor]
  cases ha : a.testBit 2 <;> cases hb : b.testBit 2 <;> simp

/-- Behaviour of the bind loop when no remaining outcome carries
ERR_ABORT: every listener is processed, the result is the accumulated
OR over all of them. -/
theorem udp_bind_loop_no_abort (errlen : Nat) (ls : List Listener) :
    ∀ (acc : Nat) (buf : String),
      (∀ l ∈ ls, bindOutcome l &&& ERR_ABORT = 0) →
      acc &&& ERR_ABORT = 0 →
      (udp_bind_loop errlen ls acc buf).err = orOutcomes acc ls ∧
      (udp_bind_loop errlen ls acc buf).ls = ls.map bindLi ∧
      (udp_bind_loop errlen ls acc buf).trace = ls := by
  induction ls with
  | nil => intro acc buf _ _; exact ⟨rfl, rfl, rfl⟩
  | cons l rest ih =>
    intro acc buf h hacc
    have hl : bindOutcome l &&& ERR_ABORT = 0 :=
      h l (List.mem_cons_self _ _)
    have hacc2 : (acc ||| bindOutcome l) &&& ERR_ABORT = 0 := by
      by_contra hc
      rcases (land_abort_lor acc (bindOutcome l)).1 hc with h1 | h1
      · exact h1 hacc
      · exact h1 hl
    have e1 : (udp_bind_listener l buf errlen).err = bindOutcome l :=
      udp_bind_listener_err_indep l buf errlen
    have e2 : (udp_bind_listener l buf errlen).li = bindLi l :=
      udp_bind_listener_li_indep l buf errlen
    simp only [udp_bind_loop, e1, e2]
    rw [if_neg (fun hc => hc hacc2)]
    have hrest : ∀ x ∈ rest, bindOutcome x &&& ERR_ABORT = 0 :=
      fun x hx => h x (List.mem_cons_of_mem _ hx)
    rcases ih (acc ||| bindOutcome l) (udp_bind_listener l buf errlen).buf
        hrest hacc2 with ⟨he, hls, htr⟩
    exact ⟨he, by simp [hls], by simp [htr]⟩

/-- Behaviour of the bind loop when the first ERR_ABORT outcome sits
right after an abort-free prefix: the loop processes the prefix and the
aborting listener, stops, and leaves the rest untouched. -/
theorem udp_bind_loop_abort (errlen : Nat) (pre : List Listener) :
    ∀ (a : Listener) (post : List Listener) (acc : Nat) (buf : String),
      (∀ l ∈ pre, bindOutcome l &&& ERR_ABORT = 0) →
      acc &&& ERR_ABORT = 0 →
      bindOutcome a &&& ERR_ABORT ≠ 0 →
      (udp_bind_loop errlen (pre ++ a :: post) acc buf).err
          = orOutcomes acc (pre ++ [a]) ∧
      (udp_bind_loop errlen (pre ++ a :: post) acc buf).ls
          = (pre ++ [a]).map bindLi ++ post ∧
      (udp_bind_loop errlen (pre ++ a :: post) acc buf).trace
          = pre ++ [a] := by
  induction pre with
  | nil =>
    intro a post acc buf _ hacc ha
    have e1 : (udp_bind_listener a buf errlen).err = bindOutcome a :=
      udp_bind_listener_err_indep a buf errlen
    have e2 : (udp_bind_listener a buf errlen).li = bindLi a :=
      udp_bind_listener_li_indep a buf errlen
    simp only [List.nil_append, udp_bind_loop, e1, e2]
    rw [if_pos ((land_abort_lor acc (bindOutcome a)).2 (Or.inr ha))]
    exact ⟨rfl, by simp, rfl⟩
  | cons p pre ih =>
    intro a post acc buf h hacc ha
    have hp : bindOutcome p &&& ERR_ABORT = 0 :=
      h p (List.mem_cons_self _ _)
    have hacc2 : (acc ||| bindOutcome p) &&& ERR_ABORT = 0 := by
      by_contra hc
      rcases (land_abort_lor acc (bindOutcome p)).1 hc with h1 | h1
      · exact h1 hacc
      · exact h1 hp
    have e1 : (udp_bind_listener p buf errlen).err = bindOutcome p :=
      udp_bind_listener_err_indep p buf errlen
    have e2 : (udp_bind_listener p buf errlen).li = bindLi p :=
      udp_bind_listener_li_indep p buf errlen
    simp only [List.cons_append, udp_bind_loop, e1, e2]
    rw [if_neg (fun hc => hc hacc2)]
    have hpre : ∀ x ∈ pre, bindOutcome x &&& ERR_ABORT = 0 :=
      fun x hx => h x (List.mem_cons_of_mem _ hx)
    rcases ih a post (acc ||| bindOutcome p)
        (udp_bind_listener p buf errlen).buf hpre hacc2 ha with ⟨he, hls, htr⟩
    exact ⟨he, by simp [hls], by simp [htr]⟩

/-! ## Claim theorems -/

/-- C6: for every listener whose state is not LI_ASSIGNED,
`udp_bind_listener` returns ERR_NONE, leaves the listener unchanged (no
state transition) and never invokes the external bind primitive. -/
theorem udp_bind_listener_not_assigned (li : Listener) (buf : String)
    (errlen : Nat) (h : li.state ≠ LI_ASSIGNED) :
    (udp_bind_listener li buf errlen).err = ERR_NONE ∧
    (udp_bind_listener li buf errlen).li = li ∧
    (udp_bind_listener li buf errlen).attempted = false := by
  simp only [udp_bind_listener]
  rw [if_pos h]
  exact ⟨rfl, rfl, rfl⟩

/-- A listener that is already bound (LI_LISTEN), used to instantiate
the not-assigned theorems. -/
def boundListener : Listener :=
  { id := 20, state := LI_LISTEN, mode := PR_MODE_SYSLOG
    rx_addr := { family := AF_INET, str := "127.0.0.1", port := htons 514 }
    proto := some ProtoId.udp4, bindResult := ERR_NONE, bindMsg := "" }

theorem udp_bind_listener_not_assigned_witness :
    boundListener.state ≠ LI_ASSIGNED ∧
    ((udp_bind_listener boundListener "stale" 64).err = ERR_NONE ∧
     (udp_bind_listener boundListener "stale" 64).li = boundListener ∧
     (udp_bind_listener boundListener "stale" 64).attempted = false) :=
  ⟨by decide,
   udp_bind_listener_not_assigned boundListener "stale" 64 (by decide)⟩

/-- C9: `udp_pause_listener` returns a negative value for every
listener, in every state: never zero, never positive. -/
theorem udp_pause_listener_always_fails (l : Listener) :
    udp_pause_listener l < 0 ∧ udp_pause_listener l ≠ 0 ∧
    ¬ 0 < udp_pause_listener l := by
  refine ⟨?_, ?_, ?_⟩ <;> simp only [udp_pause_listener] <;> omega

/-- C10: with a nonzero capacity, `udp_bind_listener` clears the
caller's buffer to the empty string before examining the listener's
state, so the buffer is mutated even on the paths that return ERR_NONE
without doing anything: a listener not in LI_ASSIGNED, and a successful
bind that produces no message. -/
theorem udp_bind_listener_clears_buffer (li : Listener) (buf : String)
    (errlen : Nat) (hlen : errlen ≠ 0) :
    (li.state ≠ LI_ASSIGNED →
      (udp_bind_listener li buf errlen).buf = "" ∧
      (udp_bind_listener li buf errlen).err = ERR_NONE) ∧
    (li.state = LI_ASSIGNED → li.mode = PR_MODE_SYSLOG →
      li.bindResult = ERR_NONE →
      (udp_bind_listener li buf errlen).buf = "" ∧
      (udp_bind_listener li buf errlen).err = ERR_NONE) := by
  constructor
  · intro h
    simp only [udp_bind_listener]
    rw [if_pos hlen, if_pos h]
    exact ⟨rfl, rfl⟩
  · intro h hm hb
    simp [udp_bind_listener, h, hm, hb, hlen]

theorem udp_bind_listener_clears_buffer_witness :
    (64 : Nat) ≠ 0 ∧ boundListener.state ≠ LI_ASSIGNED ∧
    ((udp_bind_listener boundListener "stale" 64).buf = "" ∧
     (udp_bind_listener boundListener "stale" 64).err = ERR_NONE) :=
  ⟨by decide, by decide,
   (udp_bind_listener_clears_buffer boundListener "stale" 64 (by decide)).1
     (by decide)⟩

/-- A listener in LI_ASSIGNED with the supported (syslog) mode whose
external bind primitive fails with a retryable alert and a message. -/
def failListener : Listener :=
  { id := 3, state := LI_ASSIGNED, mode := PR_MODE_SYSLOG
    rx_addr := { family := AF_INET, str := "127.0.0.1", port := htons 514 }
    proto := some ProtoId.udp4
    bindResult := ERR_RETRYABLE ||| ERR_ALERT, bindMsg := "cannot bind socket" }

set_option maxRecDepth 8192 in
/-- C4 counterexample: on the bind-primitive failure path the outcome
carries a message (ERR_ALERT) and the capacity is nonzero, yet the
buffer receives the primitive's message verbatim, not
`"<text> [<address>:<port>]"`. -/
theorem udp_bind_listener_msg_cex :
    (udp_bind_listener failListener "" 100).err = (ERR_RETRYABLE ||| ERR_ALERT) ∧
    (udp_bind_listener failListener "" 100).buf = "cannot bind socket" ∧
    (udp_bind_listener failListener "" 100).buf ≠
      "cannot bind socket" ++ " [" ++ addr_to_str failListener.rx_addr ++ ":"
        ++ toString (get_host_port failListener.rx_addr) ++ "]" := by
  decide

/-- C4 as amended: with nonzero capacity, the unsupported-mode
diagnostic is rendered as `"<text> [<address>:<port>]"` (truncated to
capacity - 1); a message from a failed external bind primitive is
copied verbatim, truncated, without the address suffix; with zero
capacity no message is produced on any path (the buffer is untouched)
and only the outcome flags are returned. -/
theorem udp_bind_listener_message_paths (li : Listener) (buf : String)
    (errlen : Nat) :
    (errlen ≠ 0 → li.state = LI_ASSIGNED → li.mode ≠ PR_MODE_SYSLOG →
      (udp_bind_listener li buf errlen).buf =
        ("UDP is not yet supported on this proxy mode" ++ " ["
          ++ addr_to_str li.rx_addr ++ ":"
          ++ toString (get_host_port li.rx_addr) ++ "]").take (errlen - 1)) ∧
    (errlen ≠ 0 → li.state = LI_ASSIGNED → li.mode = PR_MODE_SYSLOG →
      li.bindResult ≠ ERR_NONE →
      (udp_bind_listener li buf errlen).buf = li.bindMsg.take (errlen - 1)) ∧
    (errlen = 0 → (udp_bind_listener li buf errlen).buf = buf) := by
  refine ⟨?_, ?_, ?_⟩
  · intro hlen h hm
    cases hmode : li.mode with
    | PR_MODE_SYSLOG => exact absurd hmode hm
    | _ => simp [udp_bind_listener, h, hmode, hlen, snprintf_write]
  · intro hlen h hm hb
    simp [udp_bind_listener, h, hm, hb, hlen, snprintf_write]
  · intro h0
    subst h0
    simp only [udp_bind_listener]
    split
    · simp
    · split
      · split <;> simp [snprintf_write]
      · simp [snprintf_write]

theorem udp_bind_listener_message_paths_witness :
    (100 : Nat) ≠ 0 ∧ failListener.state = LI_ASSIGNED ∧
    failListener.mode = PR_MODE_SYSLOG ∧ failListener.bindResult ≠ ERR_NONE ∧
    (udp_bind_listener failListener "" 100).buf
      = failListener.bindMsg.take (100 - 1) :=
  ⟨by decide, by decide, by decide, by decide,
   (udp_bind_listener_message_paths failListener "" 100).2.1
     (by decide) (by decide) (by decide) (by decide)⟩

/-- C3: over a listener list made of an abort-free prefix followed by
the first listener whose outcome carries ERR_ABORT, `udp_bind_listeners`
invokes `udp_bind_listener` exactly on the prefix and that listener (in
list order, nothing after it), returns the OR of exactly those
outcomes, and leaves the later listeners untouched; when no outcome
carries ERR_ABORT, every listener is processed and the result is the OR
of all outcomes. -/
theorem udp_bind_listeners_spec :
    (∀ (pre : List Listener) (a : Listener) (post : List Listener)
        (buf : String) (errlen : Nat),
      (∀ l ∈ pre, bindOutcome l &&& ERR_ABORT = 0) →
      bindOutcome a &&& ERR_ABORT ≠ 0 →
      (udp_bind_listeners (pre ++ a :: post) buf errlen).err
          = orOutcomes ERR_NONE (pre ++ [a]) ∧
      (udp_bind_listeners (pre ++ a :: post) buf errlen).ls
          = (pre ++ [a]).map bindLi ++ post ∧
      (udp_bind_listeners (pre ++ a :: post) buf errlen).trace
          = pre ++ [a]) ∧
    (∀ (ls : List Listener) (buf : String) (errlen : Nat),
      (∀ l ∈ ls, bindOutcome l &&& ERR_ABORT = 0) →
      (udp_bind_listeners ls buf errlen).err = orOutcomes ERR_NONE ls ∧
      (udp_bind_listeners ls buf errlen).ls = ls.map bindLi ∧
      (udp_bind_listeners ls buf errlen).trace = ls) := by
  constructor
  · intro pre a post buf errlen h ha
    exact udp_bind_loop_abort errlen pre a post ERR_NONE buf h (by decide) ha
  · intro ls buf errlen h
    exact udp_bind_loop_no_abort errlen ls ERR_NONE buf h (by decide)

/-- A listener whose bind succeeds cleanly. -/
def okListener : Listener :=
  { id := 10, state := LI_ASSIGNED, mode := PR_MODE_SYSLOG
    rx_addr := { family := AF_INET, str := "127.0.0.1", port := htons 514 }
    proto := some ProtoId.udp4, bindResult := ERR_NONE, bindMsg := "" }

/-- A listener whose external bind primitive fails with ERR_ABORT. -/
def abortListener : Listener :=
  { id := 11, state := LI_ASSIGNED, mode := PR_MODE_SYSLOG
    rx_addr := { family := AF_INET, str := "10.1.1.1", port := htons 514 }
    proto := some ProtoId.udp4
    bindResult := ERR_RETRYABLE ||| ERR_ABORT, bindMsg := "out of memory" }

/-- A listener placed after the aborting one. -/
def tailListener : Listener :=
  { id := 12, state := LI_ASSIGNED, mode := PR_MODE_SYSLOG
    rx_addr := { family := AF_INET, str := "10.2.2.2", port := htons 514 }
    proto := some ProtoId.udp4, bindResult := ERR_NONE, bindMsg := "" }

set_option maxRecDepth 8192 in
theorem udp_bind_listeners_spec_witness :
    bindOutcome okListener &&& ERR_ABORT = 0 ∧
    bindOutcome abortListener &&& ERR_ABORT ≠ 0 ∧
    ((udp_bind_listeners ([okListener] ++ abortListener :: [tailListener])
        "" 100).err = orOutcomes ERR_NONE ([okListener] ++ [abortListener]) ∧
     (udp_bind_listeners ([okListener] ++ abortListener :: [tailListener])
        "" 100).ls
          = ([okListener] ++ [abortListener]).map bindLi ++ [tailListener] ∧
     (udp_bind_listeners ([okListener] ++ abortListener :: [tailListener])
        "" 100).trace = [okListener] ++ [abortListener]) :=
  ⟨by decide, by decide,
   udp_bind_listeners_spec.1 [okListener] abortListener [tailListener] "" 100
     (by decide) (by decide)⟩

/-- Listener A of the C5 scenario: LI_ASSIGNED, supported (syslog)
frontend mode, external bind succeeds. -/
def liA : Listener :=
  { id := 1, state := LI_ASSIGNED, mode := PR_MODE_SYSLOG
    rx_addr := { family := AF_INET, str := "127.0.0.1", port := htons 514 }
    proto := some ProtoId.udp4, bindResult := ERR_NONE, bindMsg := "" }

/-- Listener B of the C5 scenario: LI_ASSIGNED, unsupported (TCP)
frontend mode. -/
def liB : Listener :=
  { id := 2, state := LI_ASSIGNED, mode := PR_MODE_TCP
    rx_addr := { family := AF_INET, str := "192.168.0.1", port := htons 53 }
    proto := some ProtoId.udp4, bindResult := ERR_NONE, bindMsg := "" }

set_option maxRecDepth 8192 in
/-- C5: binding the list [A, B] where A is assigned with the supported
mode and B is assigned with an unsupported mode returns
ERR_FATAL|ERR_ALERT (both flags set); A ends in LI_LISTEN, B stays in
LI_ASSIGNED (its actual bind is never attempted), and the buffer holds
B's fixed diagnostic with B's address and port appended. -/
theorem udp_bind_listeners_scenario :
    (udp_bind_listeners [liA, liB] "" 200).err = (ERR_FATAL ||| ERR_ALERT) ∧
    (udp_bind_listeners [liA, liB] "" 200).err &&& ERR_FATAL ≠ 0 ∧
    (udp_bind_listeners [liA, liB] "" 200).err &&& ERR_ALERT ≠ 0 ∧
    (udp_bind_listeners [liA, liB] "" 200).ls
      = [{ liA with state := LI_LISTEN }, liB] ∧
    liB.state = LI_ASSIGNED ∧
    (udp_bind_listener liB "" 200).attempted = false ∧
    (udp_bind_listeners [liA, liB] "" 200).buf
      = "UDP is not yet supported on this proxy mode [192.168.0.1:53]" := by
  decide

/-- C7: on a listener not in LI_INIT both add-listener variants mutate
nothing (listener, list membership and count unchanged); in particular
a second add after a successful one is a no-op, leaving the port at the
first value (network byte order) and the state at LI_ASSIGNED. -/
theorem udp_add_listener_guard :
    (∀ (li : Listener) (p : Protocol) (port : Nat), li.state ≠ LI_INIT →
        udp4_add_listener li p port = (li, p)) ∧
    (∀ (li : Listener) (p : Protocol) (port : Nat), li.state ≠ LI_INIT →
        udp6_add_listener li p port = (li, p)) ∧
    (∀ (li : Listener) (p : Protocol), li.state = LI_INIT →
        udp4_add_listener (udp4_add_listener li p 53).1
            (udp4_add_listener li p 53).2 5353 = udp4_add_listener li p 53 ∧
        (udp4_add_listener li p 53).1.rx_addr.port = htons 53 ∧
        (udp4_add_listener li p 53).1.state = LI_ASSIGNED) := by
  refine ⟨?_, ?_, ?_⟩
  · intro li p port h
    simp [udp4_add_listener, h]
  · intro li p port h
    simp [udp6_add_listener, h]
  · intro li p h
    simp [udp4_add_listener, h]

/-- A listener already attached (LI_ASSIGNED), used to instantiate the
add-listener guard. -/
def asgListener : Listener :=
  { id := 30, state := LI_ASSIGNED, mode := PR_MODE_SYSLOG
    rx_addr := { family := AF_INET, str := "0.0.0.0", port := htons 53 }
    proto := some ProtoId.udp4, bindResult := ERR_NONE, bindMsg := "" }

/-- An empty protocol descriptor state. -/
def proto0 : Protocol := { listeners := [], nb_listeners := 0 }

theorem udp_add_listener_guard_witness :
    asgListener.state ≠ LI_INIT ∧
    udp4_add_listener asgListener proto0 5353 = (asgListener, proto0) :=
  ⟨by decide, udp_add_listener_guard.1 asgListener proto0 5353 (by decide)⟩

/-- C8: adding a LI_INIT listener stores `htons port`, moves it to
LI_ASSIGNED, sets its back-reference to the descriptor it was added to,
makes it a member of exactly that descriptor's listener list (once, and
of no other descriptor's), and increments that descriptor's count by
exactly 1 — for both the v4 and the v6 variant. -/
theorem udp_add_listener_init (li : Listener) (p4 p6 : Protocol) (port : Nat)
    (h : li.state = LI_INIT) (h4 : li.id ∉ p4.listeners)
    (h6 : li.id ∉ p6.listeners) :
    ((udp4_add_listener li p4 port).1.state = LI_ASSIGNED ∧
     (udp4_add_listener li p4 port).1.proto = some ProtoId.udp4 ∧
     ((udp4_add_listener li p4 port).2.listeners).count
         ((udp4_add_listener li p4 port).1.id) = 1 ∧
     (udp4_add_listener li p4 port).1.id
         ∈ (udp4_add_listener li p4 port).2.listeners ∧
     (udp4_add_listener li p4 port).1.id ∉ p6.listeners ∧
     (udp4_add_listener li p4 port).2.nb_listeners = p4.nb_listeners + 1 ∧
     (udp4_add_listener li p4 port).1.rx_addr.port = htons port) ∧
    ((udp6_add_listener li p6 port).1.state = LI_ASSIGNED ∧
     (udp6_add_listener li p6 port).1.proto = some ProtoId.udp6 ∧
     ((udp6_add_listener li p6 port).2.listeners).count
         ((udp6_add_listener li p6 port).1.id) = 1 ∧
     (udp6_add_listener li p6 port).1.id
         ∈ (udp6_add_listener li p6 port).2.listeners ∧
     (udp6_add_listener li p6 port).1.id ∉ p4.listeners ∧
     (udp6_add_listener li p6 port).2.nb_listeners = p6.nb_listeners + 1 ∧
     (udp6_add_listener li p6 port).1.rx_addr.port = htons port) := by
  have hne : ¬ li.state ≠ LI_INIT := fun hc => hc h
  constructor
  · simp only [udp4_add_listener, if_neg hne]
    simp [List.count_append, List.count_eq_zero.2 h4, h6]
  · simp only [udp6_add_listener, if_neg hne]
    simp [List.count_append, List.count_eq_zero.2 h6, h4]

/-- A freshly created (LI_INIT) listener. -/
def initListener : Listener :=
  { id := 40, state := LI_INIT, mode := PR_MODE_SYSLOG
    rx_addr := { family := AF_INET, str := "0.0.0.0", port := 0 }
    proto := none, bindResult := ERR_NONE, bindMsg := "" }

/-- A protocol descriptor already holding an unrelated listener. -/
def proto1 : Protocol := { listeners := [7], nb_listeners := 1 }

theorem udp_add_listener_init_witness :
    initListener.state = LI_INIT ∧ initListener.id ∉ proto0.listeners ∧
    initListener.id ∉ proto1.listeners ∧
    ((udp4_add_listener initListener proto0 53).1.state = LI_ASSIGNED ∧
     (udp4_add_listener initListener proto0 53).1.proto = some ProtoId.udp4 ∧
     ((udp4_add_listener initListener proto0 53).2.listeners).count
         ((udp4_add_listener initListener proto0 53).1.id) = 1 ∧
     (udp4_add_listener initListener proto0 53).1.id
         ∈ (udp4_add_listener initListener proto0 53).2.listeners ∧
     (udp4_add_listener initListener proto0 53).1.id ∉ proto1.listeners ∧
     (udp4_add_listener initListener proto0 53).2.nb_listeners
         = proto0.nb_listeners + 1 ∧
     (udp4_add_listener initListener proto0 53).1.rx_addr.port = htons 53) :=
  ⟨by decide, by decide, by decide,
   (udp_add_listener_init initListener proto0 proto1 53
      (by decide) (by decide) (by decide)).1⟩
